import Mathlib

/-
Verification of the MTG life-counter firmware (src/code.py) against its
natural-language specification.

The program is a single cooperative polling loop driving four player life
counters from four rotary encoders with momentary switches, plus a
time-gated ambient color cycle.  We embed the state and the loop body
shallowly:

* `Player` embeds the Python `Player` class (name, health, cosmetic color,
  and the text shown in its display label).  Python's unbounded `int` is
  `Int`; the f-string rendering of an integer is `Int.repr`, which agrees
  with Python's decimal rendering (optional minus sign followed by digits).
* The per-slot reconciliation in the `while True` loop is split, exactly as
  in the source, into the detent branch (lines 158-167) and the
  reset/pixel branch (lines 171-176); a tick applies them to slots 0..3 in
  order after the ambient color gate.
* The time-gated color update (lines 144-151) becomes `ambientStep`, with
  wall-clock instants as rationals and the external `rgb_color_wheel`
  helper as an abstract parameter.

The display driver, the LED-matrix animation helper and the I2C plumbing
are external collaborators; only their state-visible effects (label text,
pixel values, enqueued messages) are modelled.
-/

set_option maxRecDepth 10000

/-! ### Decimal rendering facts

Python renders an integer in an f-string as an optional minus sign followed
by decimal digits.  `Int.repr` produces exactly that shape, so we use it as
the embedding of `f'...{value}...'` and prove that no integer ever renders
as the literal `"Out!"`. -/

/-- Any output of `Nat.toDigitsCore` at base 10 either is the accumulator or
starts with the digit character of some `d < 10`. -/
theorem toDigitsCore_head10 (fuel n : Nat) (acc : List Char) :
    (∃ d, d < 10 ∧ ∃ l, Nat.toDigitsCore 10 fuel n acc = Nat.digitChar d :: l) ∨
      Nat.toDigitsCore 10 fuel n acc = acc := by
  induction fuel generalizing n acc with
  | zero => right; rfl
  | succ fuel ih =>
    unfold Nat.toDigitsCore
    dsimp only
    split
    · left; exact ⟨n % 10, Nat.mod_lt _ (by decide), acc, rfl⟩
    · rcases ih (n / 10) (Nat.digitChar (n % 10) :: acc) with ⟨d, hdlt, l, h⟩ | h
      · left; exact ⟨d, hdlt, l, h⟩
      · left; exact ⟨n % 10, Nat.mod_lt _ (by decide), acc, h⟩

/-- Decimal digit characters are never the letter `O`. -/
theorem digitChar_lt10_ne_O (d : Nat) (h : d < 10) : Nat.digitChar d ≠ 'O' := by
  interval_cases d <;> decide

/-- No natural number renders as the string `"Out!"`. -/
theorem natRepr_ne_out (n : Nat) : Nat.repr n ≠ "Out!" := by
  intro h
  have hd : Nat.toDigits 10 n = ['O', 'u', 't', '!'] := congrArg String.data h
  rcases toDigitsCore_head10 (n + 1) n [] with ⟨d, hdlt, l, h2⟩ | h2
  · rw [show Nat.toDigits 10 n = Nat.toDigitsCore 10 (n + 1) n [] from rfl, h2] at hd
    exact digitChar_lt10_ne_O d hdlt (List.head_eq_of_cons_eq hd)
  · rw [show Nat.toDigits 10 n = Nat.toDigitsCore 10 (n + 1) n [] from rfl, h2] at hd
    exact List.noConfusion hd

/-- No integer renders as the string `"Out!"`. -/
theorem intRepr_ne_out (v : Int) : Int.repr v ≠ "Out!" := by
  intro h
  cases v with
  | ofNat m => exact natRepr_ne_out m h
  | negSucc m =>
    have hd : ('-' :: (Nat.repr (m + 1)).data) = ['O', 'u', 't', '!'] :=
      congrArg String.data h
    exact absurd (List.head_eq_of_cons_eq hd) (by decide)

/-- Left cancellation for string concatenation. -/
theorem str_append_cancel (a : String) {b c : String} (h : a ++ b = a ++ c) :
    b = c := by
  cases a with
  | mk da =>
    cases b with
    | mk db =>
      cases c with
      | mk dc =>
        have hd : da ++ db = da ++ dc := congrArg String.data h
        exact congrArg String.mk (List.append_cancel_left hd)

/-- The numeric rendering `"<name>: <v>"` is never the depleted rendering
`"<name>: Out!"`, whatever the integer `v`. -/
theorem playerText_ne_out (name : String) (v : Int) :
    name ++ ": " ++ Int.repr v ≠ name ++ ": Out!" := by
  intro h
  apply intRepr_ne_out v
  apply str_append_cancel (name ++ ": ")
  calc (name ++ ": ") ++ Int.repr v = name ++ ": Out!" := h
    _ = name ++ (": " ++ "Out!") := rfl
    _ = (name ++ ": ") ++ "Out!" := (String.append_assoc name ": " "Out!").symm

/-! ### The `Player` class (src/code.py lines 26-75) -/

/-- Embeds the `Player` class: `_name`, `_health`, `_color` and the text of
the display label `_text_area`.  The label's font, pixel color and screen
position are display-driver cosmetics and are not part of the state the
claims are about. -/
structure Player where
  name : String
  health : Int
  color : List Nat
  textArea : String
deriving DecidableEq

/-- Embeds `Player.__init__`: health starts at 40 and the label text is
`f'{name}: {health}'`. -/
def Player.init (name : String) (color : List Nat) : Player :=
  { name := name, health := 40, color := color,
    textArea := name ++ ": " ++ Int.repr 40 }

/-- Embeds `Player.update_health` (lines 71-75): positive health renders
numerically, otherwise the depleted `"Out!"` form is shown. -/
def Player.update_health (p : Player) : Player :=
  if p.health > 0 then { p with textArea := p.name ++ ": " ++ Int.repr p.health }
  else { p with textArea := p.name ++ ": Out!" }

/-- The `health` property setter (lines 41-44): store the value, then
recompute the label text. -/
def Player.set_health (p : Player) (v : Int) : Player :=
  Player.update_health { p with health := v }

/-- Embeds `Player.increment_health` (lines 61-64). -/
def Player.increment_health (p : Player) : Player :=
  Player.update_health { p with health := p.health + 1 }

/-- Embeds `Player.decrement_health` (lines 66-69). -/
def Player.decrement_health (p : Player) : Player :=
  Player.update_health { p with health := p.health - 1 }

/-- Embeds `Player.get_health_string` (lines 58-59): always the numeric form. -/
def Player.get_health_string (p : Player) : String :=
  p.name ++ ": " ++ Int.repr p.health

theorem Player.update_health_health (p : Player) :
    (Player.update_health p).health = p.health := by
  unfold Player.update_health; split <;> rfl

theorem Player.update_health_name (p : Player) :
    (Player.update_health p).name = p.name := by
  unfold Player.update_health; split <;> rfl

theorem Player.set_health_health (p : Player) (v : Int) :
    (p.set_health v).health = v := by
  unfold Player.set_health Player.update_health; dsimp only; split <;> rfl

theorem Player.increment_health_health (p : Player) :
    p.increment_health.health = p.health + 1 := by
  unfold Player.increment_health Player.update_health; dsimp only; split <;> rfl

theorem Player.decrement_health_health (p : Player) :
    p.decrement_health.health = p.health - 1 := by
  unfold Player.decrement_health Player.update_health; dsimp only; split <;> rfl

/-- A sample player used to instantiate witnesses. -/
def samplePlayer : Player := Player.init "Player 1" [0xff, 0x00, 0x00]

/-- Claim C1: after a health mutation setting the value to `v`, the label
text is the depleted form `"<name>: Out!"` iff `v ≤ 0`, and is the numeric
form `"<name>: <v>"` when `0 < v`; `increment_health` and
`decrement_health` are the same mutation at `health + 1` and `health - 1`. -/
theorem counter_render_out_iff (p : Player) (v : Int) :
    ((p.set_health v).textArea = p.name ++ ": Out!" ↔ v ≤ 0) ∧
    (0 < v → (p.set_health v).textArea = p.name ++ ": " ++ Int.repr v) ∧
    (v ≤ 0 → (p.set_health v).textArea = p.name ++ ": Out!") ∧
    p.increment_health = p.set_health (p.health + 1) ∧
    p.decrement_health = p.set_health (p.health - 1) := by
  have hpos : 0 < v → (p.set_health v).textArea = p.name ++ ": " ++ Int.repr v := by
    intro h
    unfold Player.set_health Player.update_health
    dsimp only
    rw [if_pos h]
  have hnonpos : v ≤ 0 → (p.set_health v).textArea = p.name ++ ": Out!" := by
    intro h
    unfold Player.set_health Player.update_health
    dsimp only
    rw [if_neg (by omega)]
  refine ⟨⟨fun h => ?_, hnonpos⟩, hpos, hnonpos, rfl, rfl⟩
  by_contra hv
  push_neg at hv
  rw [hpos hv] at h
  exact playerText_ne_out p.name v h

/-- Witness for C1: a concrete depleted rendering. -/
theorem counter_render_out_iff_witness :
    (samplePlayer.set_health (-2)).textArea = "Player 1" ++ ": Out!" :=
  (counter_render_out_iff samplePlayer (-2)).2.2.1 (by decide)

/-- Claim C9: `get_health_string` always returns the numeric form, even at
non-positive health, and never the depleted `"Out!"` form shown by the
display label. -/
theorem get_health_string_numeric (p : Player) :
    p.get_health_string = p.name ++ ": " ++ Int.repr p.health ∧
    p.get_health_string ≠ p.name ++ ": Out!" :=
  ⟨rfl, playerText_ne_out p.name p.health⟩

/-- Witness for C9 at a depleted concrete player. -/
theorem get_health_string_numeric_witness :
    (samplePlayer.set_health (-3)).get_health_string ≠
      (samplePlayer.set_health (-3)).name ++ ": Out!" :=
  (get_health_string_numeric (samplePlayer.set_health (-3))).2

/-! ### Loop state and the per-slot reconciliation (src/code.py lines 156-177)

The four slots are indexed by `Fin 4`; the Python lists `players`,
`last_positions`, `colors` and the four per-slot neopixels become functions
out of `Fin 4`. -/

/-- Value driven onto a per-slot neopixel: unlit at power-up, full white
while the switch is held, otherwise the (external) `colorwheel` of the
slot's stored color offset. -/
inductive PixelVal where
  | off
  | white
  | wheel (c : Int)
deriving DecidableEq

/-- The mutable loop state: the four `Player` objects, `last_positions`,
`colors`, the per-slot pixels, and the list of messages handed to the LED
matrix via `matrix.setup_message`. -/
structure LoopState where
  players : Fin 4 → Player
  lastPositions : Fin 4 → Int
  colors : Fin 4 → Int
  pixels : Fin 4 → PixelVal
  messages : List String

/-- The detent branch of the loop body (lines 158-167): when the polled
position differs from `last_positions[n]`, an unpressed switch
(`switches[n].value == True`) turns the delta into a counter and color
mutation, and in every case the new position is recorded. -/
def detentStep (pos : Int) (sw : Bool) (n : Fin 4) (st : LoopState) : LoopState :=
  if pos ≠ st.lastPositions n then
    let st' :=
      if sw then
        if pos > st.lastPositions n then
          { st with
            colors := Function.update st.colors n ((st.colors n + 8 + 256) % 256),
            players := Function.update st.players n (st.players n).increment_health }
        else
          { st with
            colors := Function.update st.colors n ((st.colors n - 8 + 256) % 256),
            players := Function.update st.players n (st.players n).decrement_health }
      else st
    { st' with lastPositions := Function.update st'.lastPositions n pos }
  else st

/-- The message enqueued while a switch is held (line 174). -/
def lifeResetText : String := " Life Reset! "

/-- The reset/pixel branch of the loop body (lines 171-176): a held switch
(`value == False`) drives the pixel white, forces the player's health to 40
and enqueues the reset message; otherwise the pixel shows the stored color
offset through the colorwheel. -/
def resetStep (sw : Bool) (n : Fin 4) (st : LoopState) : LoopState :=
  if !sw then
    { st with
      pixels := Function.update st.pixels n PixelVal.white,
      players := Function.update st.players n ((st.players n).set_health 40),
      messages := st.messages ++ [lifeResetText] }
  else
    { st with pixels := Function.update st.pixels n (PixelVal.wheel (st.colors n)) }

/-- One slot's share of a tick: the detent branch followed by the
reset/pixel branch. -/
def slotBody (pos : Int) (sw : Bool) (n : Fin 4) (st : LoopState) : LoopState :=
  resetStep sw n (detentStep pos sw n st)

/-- The per-slot reconciliation of one tick (lines 156-177): positions and
switches are polled once, then slots 0..3 are processed in order.
`display.refresh()` flushes the already-updated label texts and is not a
state change. -/
def tickSlots (positions : Fin 4 → Int) (switches : Fin 4 → Bool)
    (st : LoopState) : LoopState :=
  slotBody (positions 3) (switches 3) 3
    (slotBody (positions 2) (switches 2) 2
      (slotBody (positions 1) (switches 1) 1
        (slotBody (positions 0) (switches 0) 0 st)))

/-! ### Per-component behaviour of one slot's body -/

theorem detentStep_players_ne {pos : Int} {sw : Bool} {n m : Fin 4}
    {st : LoopState} (h : m ≠ n) :
    (detentStep pos sw n st).players m = st.players m := by
  unfold detentStep
  dsimp only
  split_ifs <;> simp [Function.update_noteq h]

theorem detentStep_colors_ne {pos : Int} {sw : Bool} {n m : Fin 4}
    {st : LoopState} (h : m ≠ n) :
    (detentStep pos sw n st).colors m = st.colors m := by
  unfold detentStep
  dsimp only
  split_ifs <;> simp [Function.update_noteq h]

theorem detentStep_lastPositions_ne {pos : Int} {sw : Bool} {n m : Fin 4}
    {st : LoopState} (h : m ≠ n) :
    (detentStep pos sw n st).lastPositions m = st.lastPositions m := by
  unfold detentStep
  dsimp only
  split_ifs <;> simp [Function.update_noteq h]

/-- Regardless of the branch taken, after the detent branch the recorded
position of the slot equals the polled position. -/
theorem detentStep_lastPositions_self (pos : Int) (sw : Bool) (n : Fin 4)
    (st : LoopState) :
    (detentStep pos sw n st).lastPositions n = pos := by
  unfold detentStep
  dsimp only
  split_ifs <;> simp_all [Function.update_same]

/-- With the switch held, the detent branch mutates neither players nor
colors. -/
theorem detentStep_false_players_colors (pos : Int) (n : Fin 4)
    (st : LoopState) :
    (detentStep pos false n st).players = st.players ∧
      (detentStep pos false n st).colors = st.colors := by
  unfold detentStep
  dsimp only
  split_ifs <;> simp_all

/-- With the switch unpressed and a fresh position, the slot's player is
adjusted one unit in the direction of the movement. -/
theorem detentStep_true_players_self {pos : Int} {n : Fin 4} {st : LoopState}
    (h : pos ≠ st.lastPositions n) :
    (detentStep pos true n st).players n =
      (if st.lastPositions n < pos then (st.players n).increment_health
       else (st.players n).decrement_health) := by
  unfold detentStep
  dsimp only
  rw [if_pos h]
  split_ifs <;> simp_all [Function.update_same]

/-- With the switch unpressed and a fresh position, the slot's color offset
moves by eight in the direction of the movement, wrapped into 0..255. -/
theorem detentStep_true_colors_self {pos : Int} {n : Fin 4} {st : LoopState}
    (h : pos ≠ st.lastPositions n) :
    (detentStep pos true n st).colors n =
      (if st.lastPositions n < pos then (st.colors n + 8 + 256) % 256
       else (st.colors n - 8 + 256) % 256) := by
  unfold detentStep
  dsimp only
  rw [if_pos h]
  split_ifs <;> simp_all [Function.update_same]

theorem resetStep_players_ne {sw : Bool} {n m : Fin 4} {st : LoopState}
    (h : m ≠ n) :
    (resetStep sw n st).players m = st.players m := by
  unfold resetStep
  split_ifs <;> simp [Function.update_noteq h]

theorem resetStep_true_players (n : Fin 4) (st : LoopState) :
    (resetStep true n st).players = st.players := by
  unfold resetStep
  simp

theorem resetStep_false_players_self (n : Fin 4) (st : LoopState) :
    (resetStep false n st).players n = (st.players n).set_health 40 := by
  unfold resetStep
  simp [Function.update_same]

theorem resetStep_colors (sw : Bool) (n : Fin 4) (st : LoopState) :
    (resetStep sw n st).colors = st.colors := by
  unfold resetStep
  split_ifs <;> rfl

theorem resetStep_lastPositions (sw : Bool) (n : Fin 4) (st : LoopState) :
    (resetStep sw n st).lastPositions = st.lastPositions := by
  unfold resetStep
  split_ifs <;> rfl

/-- An unchanged position leaves the detent branch inert. -/
theorem detentStep_eq_of_same {pos : Int} {sw : Bool} {n : Fin 4}
    {st : LoopState} (h : ¬pos ≠ st.lastPositions n) :
    detentStep pos sw n st = st := by
  unfold detentStep
  rw [if_neg h]

theorem slotBody_players_ne {pos : Int} {sw : Bool} {n m : Fin 4}
    {st : LoopState} (h : m ≠ n) :
    (slotBody pos sw n st).players m = st.players m := by
  unfold slotBody
  rw [resetStep_players_ne h, detentStep_players_ne h]

theorem slotBody_colors_ne {pos : Int} {sw : Bool} {n m : Fin 4}
    {st : LoopState} (h : m ≠ n) :
    (slotBody pos sw n st).colors m = st.colors m := by
  unfold slotBody
  rw [resetStep_colors, detentStep_colors_ne h]

theorem slotBody_lastPositions_ne {pos : Int} {sw : Bool} {n m : Fin 4}
    {st : LoopState} (h : m ≠ n) :
    (slotBody pos sw n st).lastPositions m = st.lastPositions m := by
  unfold slotBody
  rw [resetStep_lastPositions, detentStep_lastPositions_ne h]

theorem slotBody_lastPositions_self (pos : Int) (sw : Bool) (n : Fin 4)
    (st : LoopState) :
    (slotBody pos sw n st).lastPositions n = pos := by
  unfold slotBody
  rw [resetStep_lastPositions, detentStep_lastPositions_self]

/-- What one slot's body does to that slot's player, as a function of the
polled position, the switch reading and the slot's previous state. -/
theorem slotBody_players_self (pos : Int) (sw : Bool) (n : Fin 4)
    (st : LoopState) :
    (slotBody pos sw n st).players n =
      if sw then
        (if pos ≠ st.lastPositions n then
          (if st.lastPositions n < pos then (st.players n).increment_health
           else (st.players n).decrement_health)
         else st.players n)
      else (st.players n).set_health 40 := by
  cases sw with
  | false =>
    unfold slotBody
    rw [resetStep_false_players_self, congrFun (detentStep_false_players_colors pos n st).1 n]
    simp
  | true =>
    unfold slotBody
    rw [congrFun (resetStep_true_players n _) n]
    by_cases hp : pos ≠ st.lastPositions n
    · rw [detentStep_true_players_self hp, if_pos hp]
      simp
    · rw [detentStep_eq_of_same hp, if_neg hp]
      simp

/-- What one slot's body does to that slot's color offset. -/
theorem slotBody_colors_self (pos : Int) (sw : Bool) (n : Fin 4)
    (st : LoopState) :
    (slotBody pos sw n st).colors n =
      if sw = true ∧ pos ≠ st.lastPositions n then
        (if st.lastPositions n < pos then (st.colors n + 8 + 256) % 256
         else (st.colors n - 8 + 256) % 256)
      else st.colors n := by
  unfold slotBody
  rw [resetStep_colors]
  cases sw with
  | false =>
    rw [congrFun (detentStep_false_players_colors pos n st).2 n]
    simp
  | true =>
    by_cases hp : pos ≠ st.lastPositions n
    · rw [detentStep_true_colors_self hp]
      simp [hp]
    · rw [detentStep_eq_of_same hp]
      simp [hp]


/-- The value of slot `n`'s player after one whole pass, as a function of
the pre-tick state (used to state the tick-level lemmas compactly). -/
def playersAfter (positions : Fin 4 → Int) (switches : Fin 4 → Bool)
    (st : LoopState) (n : Fin 4) : Player :=
  if switches n then
    (if positions n ≠ st.lastPositions n then
      (if st.lastPositions n < positions n then (st.players n).increment_health
       else (st.players n).decrement_health)
     else st.players n)
  else (st.players n).set_health 40

/-- The value of slot `n`'s color offset after one whole pass, as a
function of the pre-tick state. -/
def colorsAfter (positions : Fin 4 → Int) (switches : Fin 4 → Bool)
    (st : LoopState) (n : Fin 4) : Int :=
  if switches n = true ∧ positions n ≠ st.lastPositions n then
    (if st.lastPositions n < positions n then (st.colors n + 8 + 256) % 256
     else (st.colors n - 8 + 256) % 256)
  else st.colors n

theorem slotBody_players_self_spec (positions : Fin 4 → Int)
    (switches : Fin 4 → Bool) (st : LoopState) (n : Fin 4) :
    (slotBody (positions n) (switches n) n st).players n =
      playersAfter positions switches st n := by
  unfold playersAfter
  rw [slotBody_players_self]

theorem slotBody_colors_self_spec (positions : Fin 4 → Int)
    (switches : Fin 4 → Bool) (st : LoopState) (n : Fin 4) :
    (slotBody (positions n) (switches n) n st).colors n =
      colorsAfter positions switches st n := by
  unfold colorsAfter
  rw [slotBody_colors_self]

/-- The player of slot `n` after a whole pass over the four slots depends
only on slot `n`'s own input and pre-tick state. -/
theorem tickSlots_players_eval (positions : Fin 4 → Int)
    (switches : Fin 4 → Bool) (st : LoopState) (n : Fin 4) :
    (tickSlots positions switches st).players n =
      playersAfter positions switches st n := by
  fin_cases n
  · show (tickSlots positions switches st).players 0 =
      playersAfter positions switches st 0
    unfold tickSlots
    rw [slotBody_players_ne (by decide : (0 : Fin 4) ≠ 3),
      slotBody_players_ne (by decide : (0 : Fin 4) ≠ 2),
      slotBody_players_ne (by decide : (0 : Fin 4) ≠ 1),
      slotBody_players_self_spec]
  · show (tickSlots positions switches st).players 1 =
      playersAfter positions switches st 1
    unfold tickSlots
    rw [slotBody_players_ne (by decide : (1 : Fin 4) ≠ 3),
      slotBody_players_ne (by decide : (1 : Fin 4) ≠ 2),
      slotBody_players_self_spec]
    unfold playersAfter
    rw [slotBody_players_ne (by decide : (1 : Fin 4) ≠ 0),
      slotBody_lastPositions_ne (by decide : (1 : Fin 4) ≠ 0)]
  · show (tickSlots positions switches st).players 2 =
      playersAfter positions switches st 2
    unfold tickSlots
    rw [slotBody_players_ne (by decide : (2 : Fin 4) ≠ 3),
      slotBody_players_self_spec]
    unfold playersAfter
    rw [slotBody_players_ne (by decide : (2 : Fin 4) ≠ 1),
      slotBody_players_ne (by decide : (2 : Fin 4) ≠ 0),
      slotBody_lastPositions_ne (by decide : (2 : Fin 4) ≠ 1),
      slotBody_lastPositions_ne (by decide : (2 : Fin 4) ≠ 0)]
  · show (tickSlots positions switches st).players 3 =
      playersAfter positions switches st 3
    unfold tickSlots
    rw [slotBody_players_self_spec]
    unfold playersAfter
    rw [slotBody_players_ne (by decide : (3 : Fin 4) ≠ 2),
      slotBody_players_ne (by decide : (3 : Fin 4) ≠ 1),
      slotBody_players_ne (by decide : (3 : Fin 4) ≠ 0),
      slotBody_lastPositions_ne (by decide : (3 : Fin 4) ≠ 2),
      slotBody_lastPositions_ne (by decide : (3 : Fin 4) ≠ 1),
      slotBody_lastPositions_ne (by decide : (3 : Fin 4) ≠ 0)]

/-- After a whole pass, every slot's recorded position equals the position
polled on that pass, whatever branches were taken. -/
theorem tickSlots_lastPositions_eval (positions : Fin 4 → Int)
    (switches : Fin 4 → Bool) (st : LoopState) (n : Fin 4) :
    (tickSlots positions switches st).lastPositions n = positions n := by
  fin_cases n
  · show (tickSlots positions switches st).lastPositions 0 = positions 0
    unfold tickSlots
    rw [slotBody_lastPositions_ne (by decide : (0 : Fin 4) ≠ 3),
      slotBody_lastPositions_ne (by decide : (0 : Fin 4) ≠ 2),
      slotBody_lastPositions_ne (by decide : (0 : Fin 4) ≠ 1),
      slotBody_lastPositions_self]
  · show (tickSlots positions switches st).lastPositions 1 = positions 1
    unfold tickSlots
    rw [slotBody_lastPositions_ne (by decide : (1 : Fin 4) ≠ 3),
      slotBody_lastPositions_ne (by decide : (1 : Fin 4) ≠ 2),
      slotBody_lastPositions_self]
  · show (tickSlots positions switches st).lastPositions 2 = positions 2
    unfold tickSlots
    rw [slotBody_lastPositions_ne (by decide : (2 : Fin 4) ≠ 3),
      slotBody_lastPositions_self]
  · show (tickSlots positions switches st).lastPositions 3 = positions 3
    unfold tickSlots
    rw [slotBody_lastPositions_self]

/-- The color offset of slot `n` after a whole pass depends only on slot
`n`'s own input and pre-tick state. -/
theorem tickSlots_colors_eval (positions : Fin 4 → Int)
    (switches : Fin 4 → Bool) (st : LoopState) (n : Fin 4) :
    (tickSlots positions switches st).colors n =
      colorsAfter positions switches st n := by
  fin_cases n
  · show (tickSlots positions switches st).colors 0 =
      colorsAfter positions switches st 0
    unfold tickSlots
    rw [slotBody_colors_ne (by decide : (0 : Fin 4) ≠ 3),
      slotBody_colors_ne (by decide : (0 : Fin 4) ≠ 2),
      slotBody_colors_ne (by decide : (0 : Fin 4) ≠ 1),
      slotBody_colors_self_spec]
  · show (tickSlots positions switches st).colors 1 =
      colorsAfter positions switches st 1
    unfold tickSlots
    rw [slotBody_colors_ne (by decide : (1 : Fin 4) ≠ 3),
      slotBody_colors_ne (by decide : (1 : Fin 4) ≠ 2),
      slotBody_colors_self_spec]
    unfold colorsAfter
    rw [slotBody_colors_ne (by decide : (1 : Fin 4) ≠ 0),
      slotBody_lastPositions_ne (by decide : (1 : Fin 4) ≠ 0)]
  · show (tickSlots positions switches st).colors 2 =
      colorsAfter positions switches st 2
    unfold tickSlots
    rw [slotBody_colors_ne (by decide : (2 : Fin 4) ≠ 3),
      slotBody_colors_self_spec]
    unfold colorsAfter
    rw [slotBody_colors_ne (by decide : (2 : Fin 4) ≠ 1),
      slotBody_colors_ne (by decide : (2 : Fin 4) ≠ 0),
      slotBody_lastPositions_ne (by decide : (2 : Fin 4) ≠ 1),
      slotBody_lastPositions_ne (by decide : (2 : Fin 4) ≠ 0)]
  · show (tickSlots positions switches st).colors 3 =
      colorsAfter positions switches st 3
    unfold tickSlots
    rw [slotBody_colors_self_spec]
    unfold colorsAfter
    rw [slotBody_colors_ne (by decide : (3 : Fin 4) ≠ 2),
      slotBody_colors_ne (by decide : (3 : Fin 4) ≠ 1),
      slotBody_colors_ne (by decide : (3 : Fin 4) ≠ 0),
      slotBody_lastPositions_ne (by decide : (3 : Fin 4) ≠ 2),
      slotBody_lastPositions_ne (by decide : (3 : Fin 4) ≠ 1),
      slotBody_lastPositions_ne (by decide : (3 : Fin 4) ≠ 0)]

/-! ### Ambient color cycle (src/code.py lines 136-151)

Wall-clock instants (`time.monotonic()`) are modelled as rationals.  The
external `helper.rgb_color_wheel` is an abstract parameter `wheel`; the
claims do not depend on the colors it produces. -/

/-- Embeds `next_color_step = 0.01` (line 140), the 10 ms quantum. -/
def nextColorStep : ℚ := 1/100

/-- State of the ambient branch: `color_index`, the current `(r,g,b)`, the
`next_color` gate, the dedicated neopixel `helper.pixel[0]` and the blue
LED diagnostic. -/
structure AmbientState where
  colorIndex : Int
  rgb : Int × Int × Int
  nextColor : ℚ
  pixel0 : Int × Int × Int
  blueLed : Bool
deriving DecidableEq

/-- The body of the time gate (lines 145-151), executed when the gate
fires: bump `color_index`, recompute `(r,g,b)`, set `next_color` to the
current instant, drive the ambient pixel, and toggle the blue LED on every
100th index. -/
def ambientFiredStep (wheel : Int → Int × Int × Int) (now : ℚ)
    (st : AmbientState) : AmbientState :=
  let ci := st.colorIndex + 1
  let c := wheel ci
  { colorIndex := ci, rgb := c, nextColor := now, pixel0 := c,
    blueLed := if ci % 100 = 0 then !st.blueLed else st.blueLed }

/-- The ambient color advance (line 144): fire only when `now` has passed
`next_color + next_color_step`, returning the freshly emitted color;
otherwise leave the state untouched and emit nothing. -/
def ambientStep (wheel : Int → Int × Int × Int) (now : ℚ)
    (st : AmbientState) : AmbientState × Option (Int × Int × Int) :=
  if now > st.nextColor + nextColorStep then
    (ambientFiredStep wheel now st, some (wheel (st.colorIndex + 1)))
  else (st, none)

/-- Initial ambient state (lines 136-140): `r,g,b = 0,0,0`,
`color_index = 0`, `next_color = 0.01`.  The power-up level of the blue LED
is board-defined, hence a parameter. -/
def initAmbient (b0 : Bool) : AmbientState :=
  { colorIndex := 0, rgb := (0, 0, 0), nextColor := 1/100,
    pixel0 := (0, 0, 0), blueLed := b0 }

/-- A concrete stand-in for the external color wheel, used only to
instantiate witnesses and closed scenarios. -/
def wheel0 : Int → Int × Int × Int := fun _ => (0, 0, 0)

/-- Iterated gate firings: `runFired wheel b0 k` is the ambient state after `k` elapsed quanta, each
of which fires the gate body once, paired with how many times the blue LED
has been toggled so far. -/
def runFired (wheel : Int → Int × Int × Int) (b0 : Bool) :
    Nat → AmbientState × Nat
  | 0 => (initAmbient b0, 0)
  | k + 1 =>
    let p := runFired wheel b0 k
    let st := ambientFiredStep wheel 0 p.1
    (st, p.2 + if st.blueLed != p.1.blueLed then 1 else 0)

/-! ### One whole tick of the `while True` loop (lines 142-178) -/

/-- The whole mutable state of the loop. -/
structure SysState where
  ambient : AmbientState
  loopState : LoopState

/-- One iteration of the `while True` loop: the time-gated ambient color
advance, then the per-slot reconciliation.  Polling (line 156), the
non-blocking `matrix.show_message` (line 153) and `display.refresh()`
(line 178) read but do not change the modelled state. -/
def tick (wheel : Int → Int × Int × Int) (now : ℚ) (positions : Fin 4 → Int)
    (switches : Fin 4 → Bool) (st : SysState) : SysState :=
  { ambient := (ambientStep wheel now st.ambient).1,
    loopState := tickSlots positions switches st.loopState }

/-- The message shown at startup (line 134). -/
def startText : String := " Start! "

/-- The four players created at startup (lines 113-118). -/
def initPlayers : Fin 4 → Player :=
  ![Player.init "Player 1" [0xff, 0x00, 0x00],
    Player.init "Player 2" [0x00, 0xff, 0x00],
    Player.init "Player 3" [0xff, 0x00, 0xff],
    Player.init "Player 4" [0x00, 0xff, 0xff]]

/-- The loop state at startup: `last_positions = [0, 0, 0, 0]` (line 88),
`colors = [0, 0, 0, 0]` (line 89), pixels not yet driven, and the
`' Start! '` message enqueued (line 134). -/
def initLoopState : LoopState :=
  { players := initPlayers,
    lastPositions := fun _ => 0,
    colors := fun _ => 0,
    pixels := fun _ => PixelVal.off,
    messages := [startText] }

/-- The whole state at startup. -/
def initSys (b0 : Bool) : SysState :=
  { ambient := initAmbient b0, loopState := initLoopState }

/-- Health of every player at startup is 40. -/
theorem initPlayers_health (n : Fin 4) : (initPlayers n).health = 40 := by
  fin_cases n <;> rfl

/-- Claim C2: on every tick on which a slot's switch reads held
(`value == False`), the tick forces that slot's counter to exactly 40 —
level-triggered, from any pre-tick state, hence re-asserted on every such
tick even if detent motion occurred during the hold. -/
theorem reset_hold_forces_40 (wheel : Int → Int × Int × Int) (now : ℚ)
    (positions : Fin 4 → Int) (switches : Fin 4 → Bool) (st : SysState)
    (n : Fin 4) (hsw : switches n = false) :
    ((tick wheel now positions switches st).loopState.players n).health = 40 := by
  show ((tickSlots positions switches st.loopState).players n).health = 40
  rw [tickSlots_players_eval]
  unfold playersAfter
  rw [hsw]
  simp [Player.set_health_health]

/-- Witness for C2: a held switch on slot 0 forces 40 from the initial
state. -/
theorem reset_hold_forces_40_witness :
    ((tick wheel0 0 (fun _ => 0) (fun _ => false)
        (initSys false)).loopState.players 0).health = 40 :=
  reset_hold_forces_40 wheel0 0 (fun _ => 0) (fun _ => false) (initSys false) 0 rfl

/-- Claim C3: a single detent transition on a tick with the switch
unpressed (`value == True`) changes that slot's counter by exactly +1 when
the new position is greater than the recorded one and by exactly -1
otherwise, and moves the slot's color offset by +8 (resp. -8) modulo 256. -/
theorem detent_adjust_unit_step (wheel : Int → Int × Int × Int) (now : ℚ)
    (positions : Fin 4 → Int) (switches : Fin 4 → Bool) (st : SysState)
    (n : Fin 4) (hsw : switches n = true)
    (hne : positions n ≠ st.loopState.lastPositions n) :
    ((tick wheel now positions switches st).loopState.players n).health =
      (st.loopState.players n).health +
        (if st.loopState.lastPositions n < positions n then 1 else -1) ∧
    (tick wheel now positions switches st).loopState.colors n =
      (st.loopState.colors n +
        (if st.loopState.lastPositions n < positions n then 8 else -8)) % 256 := by
  constructor
  · show ((tickSlots positions switches st.loopState).players n).health = _
    rw [tickSlots_players_eval]
    unfold playersAfter
    rw [hsw, if_pos rfl, if_pos hne]
    by_cases hlt : st.loopState.lastPositions n < positions n
    · have h2 := Player.increment_health_health (st.loopState.players n)
      rw [if_pos hlt, if_pos hlt]
      omega
    · have h2 := Player.decrement_health_health (st.loopState.players n)
      rw [if_neg hlt, if_neg hlt]
      omega
  · show (tickSlots positions switches st.loopState).colors n = _
    rw [tickSlots_colors_eval]
    unfold colorsAfter
    rw [if_pos (And.intro hsw hne)]
    by_cases hlt : st.loopState.lastPositions n < positions n
    · rw [if_pos hlt, if_pos hlt]
      omega
    · rw [if_neg hlt, if_neg hlt]
      omega

/-- Witness for C3: one forward detent on slot 0 from the initial state. -/
theorem detent_adjust_unit_step_witness :
    ((tick wheel0 0 (fun _ => 1) (fun _ => true)
        (initSys false)).loopState.players 0).health =
      ((initSys false).loopState.players 0).health +
        (if (initSys false).loopState.lastPositions 0 < (fun _ => (1 : Int)) 0
         then 1 else -1) :=
  (detent_adjust_unit_step wheel0 0 (fun _ => 1) (fun _ => true) (initSys false) 0
    rfl (by decide)).1

/-- Claim C4: after every tick, every slot's recorded `last_seen_position`
equals the position polled during that tick, regardless of the branch
taken, so each detent transition is consumed exactly once. -/
theorem last_seen_position_consumed (wheel : Int → Int × Int × Int) (now : ℚ)
    (positions : Fin 4 → Int) (switches : Fin 4 → Bool) (st : SysState)
    (n : Fin 4) :
    (tick wheel now positions switches st).loopState.lastPositions n =
      positions n := by
  show (tickSlots positions switches st.loopState).lastPositions n = positions n
  rw [tickSlots_lastPositions_eval]

/-- Claim C5: a detent transition observed while the switch is held
(`value == False`) records the new position but leaves the players and the
color offsets untouched by the detent branch itself; the slot's counter is
then governed solely by the reset branch, which leaves it at exactly 40. -/
theorem held_detent_no_mutation (pos : Int) (st : LoopState) (n : Fin 4)
    (_hne : pos ≠ st.lastPositions n) :
    (detentStep pos false n st).players = st.players ∧
    (detentStep pos false n st).colors = st.colors ∧
    (detentStep pos false n st).lastPositions n = pos ∧
    ((slotBody pos false n st).players n).health = 40 := by
  refine ⟨(detentStep_false_players_colors pos n st).1,
    (detentStep_false_players_colors pos n st).2,
    detentStep_lastPositions_self pos false n st, ?_⟩
  rw [slotBody_players_self]
  simp [Player.set_health_health]

/-- Witness for C5: a backward detent on a held slot 0 from the initial
state. -/
theorem held_detent_no_mutation_witness :
    ((slotBody (-1) false 0 initLoopState).players 0).health = 40 :=
  (held_detent_no_mutation (-1) initLoopState 0 (by decide)).2.2.2

/-- Claim C10: `last_positions` starts at 0 for every slot rather than at
the encoder's actual startup position, so a first tick whose polled
position is nonzero (switch unpressed) is treated as a detent transition
and moves that counter off 40 before any physical rotation. -/
theorem initial_position_spurious_adjust (positions : Fin 4 → Int)
    (switches : Fin 4 → Bool) (n : Fin 4)
    (hpos : positions n ≠ 0) (hsw : switches n = true) :
    initLoopState.lastPositions n = 0 ∧
    ((tickSlots positions switches initLoopState).players n).health =
      (if 0 < positions n then 41 else 39) := by
  refine ⟨rfl, ?_⟩
  rw [tickSlots_players_eval]
  unfold playersAfter
  rw [hsw, if_pos rfl]
  have hl : initLoopState.lastPositions n = 0 := rfl
  rw [hl, if_pos hpos]
  have hh : (initLoopState.players n).health = 40 := initPlayers_health n
  by_cases hlt : (0 : Int) < positions n
  · have h2 := Player.increment_health_health (initLoopState.players n)
    rw [if_pos hlt, if_pos hlt]
    omega
  · have h2 := Player.decrement_health_health (initLoopState.players n)
    rw [if_neg hlt, if_neg hlt]
    omega

/-- Witness for C10: an encoder that wakes up at position 2 drives slot 0
to 41 on the very first tick. -/
theorem initial_position_spurious_adjust_witness :
    ((tickSlots (fun _ => 2) (fun _ => true) initLoopState).players 0).health =
      (if (0 : Int) < (fun _ => (2 : Int)) 0 then 41 else 39) :=
  (initial_position_spurious_adjust (fun _ => 2) (fun _ => true) 0
    (by decide) rfl).2

/-- Inputs of the six-tick scenario: three forward detents on slot 0 with
all switches unpressed, then slot 1 held for two ticks, then one backward
detent on slot 2 while slot 2 is held. -/
def scenarioInputs : List ((Fin 4 → Int) × (Fin 4 → Bool)) :=
  [(![1, 0, 0, 0], ![true, true, true, true]),
   (![2, 0, 0, 0], ![true, true, true, true]),
   (![3, 0, 0, 0], ![true, true, true, true]),
   (![3, 0, 0, 0], ![true, false, true, true]),
   (![3, 0, 0, 0], ![true, false, true, true]),
   (![3, 0, -1, 0], ![true, true, false, true])]

/-- The state after running the scenario from startup. -/
def scenarioRun : SysState :=
  scenarioInputs.foldl (fun st i => tick wheel0 0 i.1 i.2 st) (initSys false)

/-- Claim C6: from all counters at 40, three forward detents on slot 0
(switch unpressed), two held ticks on slot 1, and one backward detent on a
held slot 2 end with counters `[43, 40, 40, 40]`. -/
theorem scenario_final_state :
    (scenarioRun.loopState.players 0).health = 43 ∧
    (scenarioRun.loopState.players 1).health = 40 ∧
    (scenarioRun.loopState.players 2).health = 40 ∧
    (scenarioRun.loopState.players 3).health = 40 := by
  decide

/-- Claim C7: the ambient advance emits at most one color per instant and
is idempotent before the next-due threshold: after an advance at `now`, a
second advance at the same `now` emits nothing, and an advance at any
`now'` that has not passed the new `next_color + next_color_step`
threshold emits nothing and leaves the state (color index, colors, gate)
unchanged. -/
theorem ambient_advance_idempotent (wheel : Int → Int × Int × Int)
    (now now' : ℚ) (st : AmbientState)
    (h : now' ≤ (ambientStep wheel now st).1.nextColor + nextColorStep) :
    ambientStep wheel now ((ambientStep wheel now st).1) =
      ((ambientStep wheel now st).1, none) ∧
    ambientStep wheel now' ((ambientStep wheel now st).1) =
      ((ambientStep wheel now st).1, none) := by
  have hsplit : (ambientStep wheel now st).1 =
      if now > st.nextColor + nextColorStep then ambientFiredStep wheel now st
      else st := by
    unfold ambientStep
    split <;> rfl
  by_cases hf : now > st.nextColor + nextColorStep
  · have h1 : (ambientStep wheel now st).1 = ambientFiredStep wheel now st := by
      rw [hsplit, if_pos hf]
    rw [h1] at h ⊢
    have hnc : (ambientFiredStep wheel now st).nextColor = now := rfl
    constructor
    · unfold ambientStep
      rw [if_neg (by rw [hnc]; intro hcon; unfold nextColorStep at hcon; linarith)]
    · unfold ambientStep
      rw [if_neg (not_lt.mpr h)]
  · have h1 : (ambientStep wheel now st).1 = st := by
      rw [hsplit, if_neg hf]
    rw [h1] at h ⊢
    constructor
    · unfold ambientStep
      rw [if_neg hf]
    · unfold ambientStep
      rw [if_neg (not_lt.mpr h)]

/-- Witness for C7: a fired advance at instant 1 followed by a second call
at the same instant emits nothing. -/
theorem ambient_advance_idempotent_witness :
    ambientStep wheel0 1 ((ambientStep wheel0 1 (initAmbient false)).1) =
      ((ambientStep wheel0 1 (initAmbient false)).1, none) :=
  (ambient_advance_idempotent wheel0 1 1 (initAmbient false) (by
    have h1 : (ambientStep wheel0 1 (initAmbient false)).1.nextColor = 1 := by
      unfold ambientStep
      rw [if_pos (show (1 : ℚ) > (initAmbient false).nextColor + nextColorStep from by
        show (1 : ℚ) > 1/100 + 1/100
        norm_num)]
      rfl
    rw [h1]
    show (1 : ℚ) ≤ 1 + 1/100
    norm_num)).1

/-- Claim C8: over 1000 elapsed quanta, each firing one `color_index`
increment from 0, the blue LED is toggled exactly 10 times (once at each
index divisible by 100), whatever its power-up level, and the index ends
at 1000. -/
theorem ambient_thousand_quanta :
    (runFired wheel0 false 1000).2 = 10 ∧
    (runFired wheel0 true 1000).2 = 10 ∧
    (runFired wheel0 false 1000).1.colorIndex = 1000 := by
  decide
